import Mathlib

/-!
Verification of the repair-shop management backend (Express route handlers over
a relational store). The route handlers are shallowly embedded as pure Lean
functions from a request and a database state to a response and a new state.
Tables are lists of rows; the SQL statements executed by each handler are
translated one by one. The express-validator middleware is external to the
repository sources, so each registration route takes the validator output
(the list of violated-rule messages) as an explicit argument; the handler
bodies read it exactly where the source reads validationResult.
-/

namespace RepairShop

/-- A row of the customers table: columns customer_id, firstName, lastName,
email, type (the INSERT at part_001 line 65 names the column type). Columns
other than the generated key are nullable, hence Option. -/
structure CustomerRow where
  customer_id : Nat
  firstName : Option String
  lastName : Option String
  email : Option String
  type : Option String
deriving Repr, DecidableEq

/-- A row of the employees table (INSERT at productRoutes.js line 233). -/
structure EmployeeRow where
  employee_id : Nat
  first_name : Option String
  last_name : Option String
  email : Option String
  nic : Option String
  role : Option String
  username : Option String
  password : Option String
  dob : Option String
deriving Repr, DecidableEq

/-- A row of a phone child table (customer_telephones, employee_phones, or the
telephones table named by the customer DELETE at part_001 line 169): the
owning parent key and the phone number. -/
structure PhoneRow where
  owner_id : Nat
  phone_number : String
deriving Repr, DecidableEq

/-- A row of the products table (INSERT at productRoutes.js line 55). -/
structure ProductRow where
  product_id : Nat
  product_name : Option String
  model : Option String
  model_no : Option String
  product_image : Option String
deriving Repr, DecidableEq

/-- The relational store: one list per table, plus the auto-increment
counters that produce result.insertId for the two parent tables. The table
named telephones is distinct from customer_telephones; only the customer
DELETE handler (part_001 line 169) touches it. -/
structure DB where
  customers : List CustomerRow
  customer_telephones : List PhoneRow
  telephones : List PhoneRow
  employees : List EmployeeRow
  employee_phones : List PhoneRow
  products : List ProductRow
  nextCustomerId : Nat
  nextEmployeeId : Nat
deriving Repr, DecidableEq

/-- HTTP responses produced by the handlers: res.status(s).json with a
message body, a message body on a 4xx check failure, an errors array from the
validation middleware, or an error body from the catch branch. -/
inductive Resp where
  | success : Nat → String → Resp
  | failure : Nat → String → Resp
  | fieldErrors : Nat → List String → Resp
  | storeError : Nat → String → Resp
deriving Repr, DecidableEq

/-- JavaScript truthiness of an optional string value: undefined and null and
the empty string are falsy, every other string is truthy. -/
def truthy : Option String → Bool
  | none => false
  | some s => !(s == "")

/-- The phone numbers stored for a given customer id, in table order
(SELECT of customer_telephones rows by customer_id). -/
def phonesOfC (db : DB) (id : Nat) : List String :=
  (db.customer_telephones.filter (fun r => r.owner_id == id)).map (fun r => r.phone_number)

/-- The phone numbers stored for a given employee id, in table order. -/
def phonesOfE (db : DB) (id : Nat) : List String :=
  (db.employee_phones.filter (fun r => r.owner_id == id)).map (fun r => r.phone_number)

/-- The body of the per-phone uniqueness loop of the registration handlers
(part_001 lines 53-61, productRoutes.js lines 221-229): walk the submitted
phone numbers in input order, querying the given phone table for each; return
the first number found there, if any, together with the list of numbers that
were actually queried (the loop returns as soon as one is found, so later
numbers are never queried). -/
def checkPhones (table : List PhoneRow) : List String → Option String × List String
  | [] => (none, [])
  | p :: ps =>
    if table.any (fun r => r.phone_number == p) then (some p, [p])
    else
      let rest := checkPhones table ps
      (rest.1, p :: rest.2)

/-- Request body of POST /api/customers/register after destructuring
(part_001 line 44): all fields present once validation has passed. -/
structure CustomerRegisterReq where
  firstName : String
  lastName : String
  email : String
  customerType : String
  phoneNumbers : List String
deriving Repr, DecidableEq

/-- Result of a registration route: the response, the database afterwards,
and the phone numbers the uniqueness loop actually queried. -/
structure RegisterResult where
  resp : Resp
  db : DB
  phonesChecked : List String
deriving Repr, DecidableEq

/-- POST /api/customers/register (part_001 lines 37-81). errs is the output
of the express-validator middleware; the handler returns the errors array
when it is nonempty, then checks email uniqueness, then each phone number in
order, then inserts the parent row capturing insertId, then bulk-inserts one
child row per phone number when the list is nonempty. -/
def registerCustomer (errs : List String) (req : CustomerRegisterReq) (db : DB) : RegisterResult :=
  if errs ≠ [] then ⟨Resp.fieldErrors 400 errs, db, []⟩
  else if db.customers.any (fun c => c.email == some req.email) then
    ⟨Resp.failure 400 "Email already exists", db, []⟩
  else
    match checkPhones db.customer_telephones req.phoneNumbers with
    | (some p, checked) =>
      ⟨Resp.failure 400 ("Phone number " ++ p ++ " already exists"), db, checked⟩
    | (none, checked) =>
      let cid := db.nextCustomerId
      let db1 := { db with
        customers := db.customers ++
          [⟨cid, some req.firstName, some req.lastName, some req.email, some req.customerType⟩],
        nextCustomerId := cid + 1 }
      let db2 :=
        if req.phoneNumbers.length > 0 then
          { db1 with customer_telephones :=
              db1.customer_telephones ++ req.phoneNumbers.map (fun p => ⟨cid, p⟩) }
        else db1
      ⟨Resp.success 201 "Customer registered successfully!", db2, checked⟩

/-- Request body of POST /api/employees/register after destructuring
(productRoutes.js line 205). -/
structure EmployeeRegisterReq where
  firstName : String
  lastName : String
  email : String
  mobileno : List String
  nic : String
  role : String
  username : String
  password : String
  dob : String
deriving Repr, DecidableEq

/-- POST /api/employees/register (productRoutes.js lines 198-249): validation
errors, email uniqueness, username uniqueness, the per-phone loop over
employee_phones, parent insert capturing insertId, bulk child insert. -/
def registerEmployee (errs : List String) (req : EmployeeRegisterReq) (db : DB) : RegisterResult :=
  if errs ≠ [] then ⟨Resp.fieldErrors 400 errs, db, []⟩
  else if db.employees.any (fun e => e.email == some req.email) then
    ⟨Resp.failure 400 "Email already exists", db, []⟩
  else if db.employees.any (fun e => e.username == some req.username) then
    ⟨Resp.failure 400 "Username already exists", db, []⟩
  else
    match checkPhones db.employee_phones req.mobileno with
    | (some p, checked) =>
      ⟨Resp.failure 400 ("Phone number " ++ p ++ " already exists"), db, checked⟩
    | (none, checked) =>
      let eid := db.nextEmployeeId
      let db1 := { db with
        employees := db.employees ++
          [⟨eid, some req.firstName, some req.lastName, some req.email, some req.nic,
            some req.role, some req.username, some req.password, some req.dob⟩],
        nextEmployeeId := eid + 1 }
      let db2 :=
        if req.mobileno.length > 0 then
          { db1 with employee_phones :=
              db1.employee_phones ++ req.mobileno.map (fun p => ⟨eid, p⟩) }
        else db1
      ⟨Resp.success 201 "Employee registered successfully!", db2, checked⟩

/-- Request body of PUT /api/customers/:id after destructuring (part_001
line 106): every field may be absent (undefined), hence Option. -/
structure CustomerUpdateReq where
  firstName : Option String
  lastName : Option String
  email : Option String
  customerType : Option String
  phoneNumbers : Option (List String)
deriving Repr, DecidableEq

/-- The duplicate-email query of PUT /api/customers/:id (part_001 lines
110-113): SELECT rows WHERE email = ? AND customer_id != ?. An absent email
is bound as SQL NULL and the comparison email = NULL holds of no row, so the
query can only match when the request supplied an email. -/
def emailConflictC (db : DB) (id : Nat) : Option String → Bool
  | none => false
  | some s => db.customers.any (fun c => c.email == some s && !(c.customer_id == id))

/-- PUT /api/customers/:id (part_001 lines 104-133). The handler never reads
validationResult, so it runs for every request: duplicate-email check, then
an unconditional UPDATE of firstName, lastName, email, type with the
destructured values (absent fields bound as NULL), then DELETE of all
customer_telephones rows of the id, then a bulk insert when a nonempty
phoneNumbers array was supplied. -/
def updateCustomer (id : Nat) (req : CustomerUpdateReq) (db : DB) : Resp × DB :=
  if emailConflictC db id req.email then
    (Resp.failure 400 "Email already exists", db)
  else
    let db1 := { db with customers := db.customers.map (fun (c : CustomerRow) =>
        if c.customer_id == id then
          ⟨c.customer_id, req.firstName, req.lastName, req.email, req.customerType⟩
        else c) }
    let db2 := { db1 with customer_telephones :=
        db1.customer_telephones.filter (fun r => !(r.owner_id == id)) }
    let db3 :=
      match req.phoneNumbers with
      | some phones =>
        if phones.length > 0 then
          { db2 with customer_telephones :=
              db2.customer_telephones ++ phones.map (fun p => ⟨id, p⟩) }
        else db2
      | none => db2
    (Resp.success 200 "Customer updated successfully!", db3)

/-- Request body of PUT /api/employees/:id after destructuring
(productRoutes.js line 314). -/
structure EmployeeUpdateReq where
  firstName : Option String
  lastName : Option String
  email : Option String
  role : Option String
  mobileno : Option (List String)
  dob : Option String
deriving Repr, DecidableEq

/-- PUT /api/employees/:id (productRoutes.js lines 312-334). No uniqueness
query of any kind is issued: the handler goes straight to the UPDATE of
first_name, last_name, email, role, dob (nic, username, password are not in
the statement), then DELETE of the employee_phones rows of the id, then a
bulk insert when a nonempty mobileno array was supplied. -/
def updateEmployee (id : Nat) (req : EmployeeUpdateReq) (db : DB) : Resp × DB :=
  let db1 := { db with employees := db.employees.map (fun (e : EmployeeRow) =>
      if e.employee_id == id then
        { e with first_name := req.firstName, last_name := req.lastName,
                 email := req.email, role := req.role, dob := req.dob }
      else e) }
  let db2 := { db1 with employee_phones :=
      db1.employee_phones.filter (fun r => !(r.owner_id == id)) }
  let db3 :=
    match req.mobileno with
    | some phones =>
      if phones.length > 0 then
        { db2 with employee_phones :=
            db2.employee_phones ++ phones.map (fun p => ⟨id, p⟩) }
      else db2
    | none => db2
  (Resp.success 200 "Employee updated successfully!", db3)

/-- The allow-list of PATCH /api/customers/:id (part_001 line 144). Each key
kept is spliced verbatim into the SQL as a column name. -/
def patchAllowList : List String := ["firstName", "lastName", "email", "customerType"]

/-- Modelled from the spec: the columns of the customers table are
customer_id, firstName, lastName, email, type (section 6 required tables);
the SQL schema itself is not under src/, but the INSERT at part_001 line 65
and the UPDATE at line 118 write the customer type to a column named type. -/
def customersColumns : List String :=
  ["customer_id", "firstName", "lastName", "email", "type"]

/-- Applying one SET assignment of the PATCH statement to a customer row,
keyed by the column name spliced into the SQL. -/
def applyField (c : CustomerRow) : String × String → CustomerRow
  | ("firstName", v) => { c with firstName := some v }
  | ("lastName", v) => { c with lastName := some v }
  | ("email", v) => { c with email := some v }
  | _ => c

/-- PATCH /api/customers/:id (part_001 lines 137-162). The handler keeps the
body keys on the allow-list, rejects with 400 when none remain, and otherwise
issues a single UPDATE whose SET clause names each kept key verbatim as a
column. The store executes the statement only if every named column exists in
the customers table; the key customerType is not a column there, so any body
containing it makes the statement fail and the handler takes the catch
branch. -/
def patchCustomer (id : Nat) (updates : List (String × String)) (db : DB) : Resp × DB :=
  let fields := updates.filter (fun kv => patchAllowList.contains kv.1)
  if fields.length == 0 then
    (Resp.failure 400 "No valid fields provided for update", db)
  else if fields.all (fun kv => customersColumns.contains kv.1) then
    (Resp.success 200 "Customer updated successfully!",
     { db with customers := db.customers.map (fun c =>
         if c.customer_id == id then fields.foldl applyField c else c) })
  else
    (Resp.storeError 500 "Unknown column in field list", db)

/-- DELETE /api/customers/:id (part_001 lines 165-174): DELETE FROM customers
by customer_id, then DELETE FROM telephones by customer_id. The second
statement names the table telephones, not customer_telephones. -/
def deleteCustomer (id : Nat) (db : DB) : Resp × DB :=
  let db1 := { db with customers := db.customers.filter (fun c => !(c.customer_id == id)) }
  let db2 := { db1 with telephones := db1.telephones.filter (fun r => !(r.owner_id == id)) }
  (Resp.success 200 "Customer deleted successfully!", db2)

/-- DELETE /api/employees/:id (productRoutes.js lines 339-348): DELETE FROM
employees by employee_id, then DELETE FROM employee_phones by employee_id. -/
def deleteEmployee (id : Nat) (db : DB) : Resp × DB :=
  let db1 := { db with employees := db.employees.filter (fun e => !(e.employee_id == id)) }
  let db2 := { db1 with employee_phones := db1.employee_phones.filter (fun r => !(r.owner_id == id)) }
  (Resp.success 200 "Employee deleted successfully!", db2)

/-- Modelled from the spec: GROUP_CONCAT of the external relational store
(section 4.1, aggregate phone numbers into a single concatenated value per
parent row) - NULL when the group has no phone rows, otherwise the numbers
joined by commas. -/
def joinComma : List String → String
  | [] => ""
  | [p] => p
  | p :: ps => p ++ "," ++ joinComma ps

/-- The aggregated phoneNumbers column produced by the LEFT JOIN plus
GROUP_CONCAT queries: NULL for a parent with no phone rows. -/
def groupConcat (phones : List String) : Option String :=
  if phones.isEmpty then none else some (joinComma phones)

/-- The response shaping shared by the read handlers (part_001 lines 186 and
213, productRoutes.js lines 261 and 285): a truthy aggregated value is split
on commas, anything else becomes the empty array. -/
def splitAgg (agg : Option String) : List String :=
  match agg with
  | some s => if s == "" then [] else s.splitOn ","
  | none => []

/-- A customer as returned by the read handlers: the parent columns plus the
phoneNumbers array. -/
structure CustomerView where
  customer_id : Nat
  firstName : Option String
  lastName : Option String
  email : Option String
  type : Option String
  phoneNumbers : List String
deriving Repr, DecidableEq

/-- An employee as returned by the read handlers. -/
structure EmployeeView where
  employee_id : Nat
  first_name : Option String
  last_name : Option String
  email : Option String
  nic : Option String
  role : Option String
  username : Option String
  password : Option String
  dob : Option String
  phoneNumbers : List String
deriving Repr, DecidableEq

/-- One output row of the customer read queries for a given parent row. -/
def customerViewOf (db : DB) (c : CustomerRow) : CustomerView :=
  ⟨c.customer_id, c.firstName, c.lastName, c.email, c.type,
   splitAgg (groupConcat (phonesOfC db c.customer_id))⟩

/-- One output row of the employee read queries for a given parent row. -/
def employeeViewOf (db : DB) (e : EmployeeRow) : EmployeeView :=
  ⟨e.employee_id, e.first_name, e.last_name, e.email, e.nic, e.role,
   e.username, e.password, e.dob,
   splitAgg (groupConcat (phonesOfE db e.employee_id))⟩

/-- GET /api/customers/all (part_001 lines 177-194): one row per customer
from the LEFT JOIN plus GROUP BY query, each mapped through the phoneNumbers
split. -/
def getAllCustomers (db : DB) : List CustomerView :=
  db.customers.map (customerViewOf db)

/-- GET /api/customers/:id (part_001 lines 198-219): the same query filtered
to one customer_id; none models the 404 branch taken when the query returns
no row. -/
def getCustomerById (id : Nat) (db : DB) : Option CustomerView :=
  match db.customers.find? (fun c => c.customer_id == id) with
  | none => none
  | some c => some (customerViewOf db c)

/-- GET /api/employees/all (productRoutes.js lines 254-269). -/
def getAllEmployees (db : DB) : List EmployeeView :=
  db.employees.map (employeeViewOf db)

/-- GET /api/employees/:id (productRoutes.js lines 272-291). -/
def getEmployeeById (id : Nat) (db : DB) : Option EmployeeView :=
  match db.employees.find? (fun e => e.employee_id == id) with
  | none => none
  | some e => some (employeeViewOf db e)

/-- Request of PUT /api/products/:id (productRoutes.js lines 98-100): the
three destructured body fields plus the optional uploaded file name set by
multer. -/
structure ProductUpdateReq where
  productName : Option String
  model : Option String
  modelNo : Option String
  file : Option String
deriving Repr, DecidableEq

/-- The SQL string built by PUT /api/products/:id (productRoutes.js lines
103-112): start from UPDATE products SET, append one assignment per truthy
field, chop the last two characters, append the WHERE clause. -/
def buildProductUpdateQuery (req : ProductUpdateReq) : String :=
  let q0 := "UPDATE products SET "
  let q1 := if truthy req.productName then q0 ++ "product_name = ?, " else q0
  let q2 := if truthy req.model then q1 ++ "model = ?, " else q1
  let q3 := if truthy req.modelNo then q2 ++ "model_no = ?, " else q2
  let q4 :=
    match req.file with
    | some _ => q3 ++ "product_image = ?, "
    | none => q3
  (q4.dropRight 2) ++ " WHERE product_id = ?"

/-- Modelled from the spec: the columns of the products table (section 6
required tables); the SQL schema itself is not under src/. -/
def productsColumns : List String :=
  ["product_id", "product_name", "model", "model_no", "product_image"]

/-- Whether a piece of SET-clause text is a single well-formed assignment to
an existing products column. -/
def isAssign (s : String) : Bool :=
  productsColumns.any (fun c => s == c ++ " = ?")

/-- Modelled from the spec: the external relational store parses and executes
an UPDATE statement on products only when it has the shape UPDATE products
SET followed by comma-separated assignments to existing columns and the
WHERE product_id clause; any other string is a syntax error surfaced as a
StoreFailure (section 7). -/
def validProductUpdateSQL (q : String) : Bool :=
  q.take 20 == "UPDATE products SET "
  && q.takeRight 21 == " WHERE product_id = ?"
  && (((q.drop 20).dropRight 21).splitOn ", ").all isAssign

/-- The effect of a successfully executed product UPDATE on one row: each
truthy field was in the SET clause with its bound value; an uploaded file is
stored as the /uploads/ path multer produced. -/
def applyProductUpdate (req : ProductUpdateReq) (p : ProductRow) : ProductRow :=
  let p1 := if truthy req.productName then { p with product_name := req.productName } else p
  let p2 := if truthy req.model then { p1 with model := req.model } else p1
  let p3 := if truthy req.modelNo then { p2 with model_no := req.modelNo } else p2
  match req.file with
  | some f => { p3 with product_image := some ("/uploads/" ++ f) }
  | none => p3

/-- PUT /api/products/:id (productRoutes.js lines 98-120): build the dynamic
UPDATE string, hand it to the store, answer 200 on success and take the
catch branch on a store error. -/
def updateProduct (id : Nat) (req : ProductUpdateReq) (db : DB) : Resp × DB :=
  let q := buildProductUpdateQuery req
  if validProductUpdateSQL q then
    (Resp.success 200 "Product updated successfully!",
     { db with products := db.products.map (fun p =>
         if p.product_id == id then applyProductUpdate req p else p) })
  else
    (Resp.storeError 500 "SQL syntax error", db)

/-- Modelled from the spec: the data-model invariant that every stored phone
number is a ten-digit string (section 3); the theorems about the read
handlers only need the weaker fact that no stored phone number is the empty
string. -/
def phonesWF (db : DB) : Bool :=
  db.customer_telephones.all (fun r => !(r.phone_number == "")) &&
  db.employee_phones.all (fun r => !(r.phone_number == ""))

/-- An empty store with fresh counters. -/
def dbEmpty : DB := ⟨[], [], [], [], [], [], 1, 1⟩

/-- A stored customer row used by the concrete scenarios. -/
def custA : CustomerRow := ⟨1, some "A", some "B", some "a@x.com", some "Regular"⟩

/-- A store holding one customer with two phone numbers. -/
def dbOneCustomer : DB :=
  ⟨[custA], [⟨1, "0711111111"⟩, ⟨1, "0722222222"⟩], [], [], [], [], 2, 1⟩

/-- A stored employee row used by the concrete scenarios. -/
def empRow1 : EmployeeRow :=
  ⟨1, some "E", some "F", some "a@x.com", some "990000000V", some "owner",
   some "user1", some "pass11", some "2000-01-01"⟩

/-- A second stored employee row with a distinct email and username. -/
def empRow2 : EmployeeRow :=
  ⟨2, some "G", some "H", some "b@x.com", some "990000001V", some "employee",
   some "user2", some "pass22", some "2000-01-01"⟩

/-- A store holding the two employees. -/
def dbTwoEmployees : DB := ⟨[], [], [], [empRow1, empRow2], [], [], 1, 3⟩

/-- An employee full-update request that supplies the email already stored
for the other employee row. -/
def ereqDupEmail : EmployeeUpdateReq :=
  ⟨some "G", some "H", some "a@x.com", some "employee", none, some "2000-01-01"⟩

/-- A well-formed customer registration request with two phone numbers. -/
def creqW : CustomerRegisterReq :=
  ⟨"Amal", "Perera", "amal@x.com", "Regular", ["0711111111", "0722222222"]⟩

/-- A well-formed employee registration request with one phone number. -/
def ereqW : EmployeeRegisterReq :=
  ⟨"Nimal", "Silva", "nimal@x.com", ["0733333333"], "990000000V", "owner",
   "nimal77", "secret77", "2000-01-01"⟩

/-- A store holding one customer and one employee, each with one phone. -/
def dbConf : DB :=
  ⟨[custA], [⟨1, "0711111111"⟩], [], [empRow1], [⟨1, "0755555555"⟩], [], 2, 2⟩

/-- A customer registration whose second phone number is already stored. -/
def creqConf : CustomerRegisterReq :=
  ⟨"Amal", "Perera", "amal@x.com", "Regular",
   ["0733333333", "0711111111", "0744444444"]⟩

/-- An employee registration whose second phone number is already stored. -/
def ereqConf : EmployeeRegisterReq :=
  ⟨"Nimal", "Silva", "nimal@x.com", ["0766666666", "0755555555"], "990000001V",
   "owner", "nimal77", "secret77", "2000-01-01"⟩

/-- A customer full-update request replacing the phone list. -/
def creqU : CustomerUpdateReq :=
  ⟨some "C", some "D", some "a@x.com", some "Premium", some ["0755555555"]⟩

/-- An employee full-update request omitting the phone list. -/
def ereqU : EmployeeUpdateReq :=
  ⟨some "X", some "Y", some "x@x.com", some "employee", none, some "2001-01-01"⟩

/-- A store for the read-handler scenario: customer 1 has one phone, customer
2 none, employee 1 none. -/
def dbReads : DB :=
  ⟨[custA, ⟨2, some "C", some "D", some "c@x.com", some "Normal"⟩],
   [⟨1, "0711111111"⟩], [], [empRow1], [], [], 3, 2⟩

theorem checkPhones_fst (t : List PhoneRow) (l : List String) :
    (checkPhones t l).1 = l.find? (fun p => t.any (fun r => r.phone_number == p)) := by
  induction l with
  | nil => rfl
  | cons a as ih =>
    by_cases h : t.any (fun r => r.phone_number == a)
    · simp [checkPhones, h, List.find?]
    · simp [checkPhones, h, List.find?, ih]

theorem checkPhones_snd_found (t : List PhoneRow) (l : List String) (p : String)
    (h : (checkPhones t l).1 = some p) :
    (checkPhones t l).2
      = l.takeWhile (fun x => !(t.any (fun r => r.phone_number == x))) ++ [p] := by
  induction l with
  | nil => simp [checkPhones] at h
  | cons a as ih =>
    by_cases ha : t.any (fun r => r.phone_number == a)
    · have : p = a := by simp [checkPhones, ha] at h; exact h.symm
      subst this
      simp [checkPhones, ha, List.takeWhile]
    · have h' : (checkPhones t as).1 = some p := by simpa [checkPhones, ha] using h
      simp [checkPhones, ha, List.takeWhile, ih h']

theorem filter_not_then_filter (id : Nat) (l : List PhoneRow) :
    (l.filter (fun r => !(r.owner_id == id))).filter (fun r => r.owner_id == id) = [] := by
  induction l with
  | nil => rfl
  | cons a t ih =>
    by_cases h : a.owner_id == id
    · simp [List.filter_cons, h, ih]
    · simp [List.filter_cons, h, ih]

theorem map_mk_filter (id : Nat) (xs : List String) :
    ((xs.map (fun p => PhoneRow.mk id p)).filter (fun r => r.owner_id == id)).map
      (fun r => r.phone_number) = xs := by
  induction xs with
  | nil => rfl
  | cons a t ih => simp [List.filter_cons, ih]

theorem phones_replaced (id : Nat) (l : List PhoneRow) (xs : List String) :
    (((l.filter (fun r => !(r.owner_id == id))) ++ xs.map (fun p => PhoneRow.mk id p)).filter
        (fun r => r.owner_id == id)).map (fun r => r.phone_number) = xs := by
  rw [List.filter_append, filter_not_then_filter, List.nil_append, map_mk_filter]

theorem phones_cleared (id : Nat) (l : List PhoneRow) :
    ((l.filter (fun r => !(r.owner_id == id))).filter
        (fun r => r.owner_id == id)).map (fun r => r.phone_number) = ([] : List String) := by
  rw [filter_not_then_filter]; rfl

/-- Claim C2: for every full update (customer or employee) that is not
rejected by the duplicate-email check (the only rejection path, present only
on the customer route), the phone rows stored for the entity afterwards are
exactly the supplied phoneNumbers list, and an omitted or empty list leaves
zero phone rows, regardless of how many rows the entity had before. -/
theorem full_update_replaces_phone_rows (id : Nat) (creq : CustomerUpdateReq)
    (ereq : EmployeeUpdateReq) (db : DB)
    (h : emailConflictC db id creq.email = false) :
    phonesOfC (updateCustomer id creq db).2 id = creq.phoneNumbers.getD [] ∧
    phonesOfE (updateEmployee id ereq db).2 id = ereq.mobileno.getD [] := by
  constructor
  · obtain ⟨fN, lN, em, cT, pN⟩ := creq
    simp only [updateCustomer, h, Bool.false_eq_true, if_false]
    cases pN with
    | none => simpa [phonesOfC, Option.getD] using phones_cleared id db.customer_telephones
    | some phones =>
      cases phones with
      | nil => simpa [phonesOfC, Option.getD] using phones_cleared id db.customer_telephones
      | cons a as =>
        simpa [phonesOfC, Option.getD] using
          phones_replaced id db.customer_telephones (a :: as)
  · obtain ⟨fN, lN, em, rl, mN, dN⟩ := ereq
    simp only [updateEmployee]
    cases mN with
    | none => simpa [phonesOfE, Option.getD] using phones_cleared id db.employee_phones
    | some phones =>
      cases phones with
      | nil => simpa [phonesOfE, Option.getD] using phones_cleared id db.employee_phones
      | cons a as =>
        simpa [phonesOfE, Option.getD] using
          phones_replaced id db.employee_phones (a :: as)

/-- Witness for C2: updating the stored customer (which keeps its own email,
exercising the primary-key exclusion in the duplicate check) replaces its two
phone rows by the one supplied number, and an employee update omitting
mobileno leaves zero phone rows. -/
theorem full_update_replaces_phone_rows_witness :
    emailConflictC dbOneCustomer 1 creqU.email = false ∧
    phonesOfC (updateCustomer 1 creqU dbOneCustomer).2 1 = ["0755555555"] ∧
    phonesOfE (updateEmployee 1 ereqU dbConf).2 1 = [] := by
  refine ⟨by decide, ?_, ?_⟩
  · exact ((full_update_replaces_phone_rows 1 creqU ereqU dbOneCustomer (by decide)).1).trans
      (by decide)
  · exact ((full_update_replaces_phone_rows 1 creqU ereqU dbConf (by decide)).2).trans
      (by decide)

theorem updateCustomer_customers (id : Nat) (creq : CustomerUpdateReq) (db : DB)
    (h : emailConflictC db id creq.email = false) :
    (updateCustomer id creq db).2.customers
      = db.customers.map (fun c => if c.customer_id == id then
          ⟨c.customer_id, creq.firstName, creq.lastName, creq.email, creq.customerType⟩
        else c) := by
  simp only [updateCustomer, h, Bool.false_eq_true, if_false]
  cases creq.phoneNumbers with
  | none => rfl
  | some phones =>
    by_cases hl : phones.length > 0
    · simp [hl]
    · simp [hl]

theorem updateEmployee_employees (id : Nat) (ereq : EmployeeUpdateReq) (db : DB) :
    (updateEmployee id ereq db).2.employees
      = db.employees.map (fun e => if e.employee_id == id then
          { e with first_name := ereq.firstName, last_name := ereq.lastName,
                   email := ereq.email, role := ereq.role, dob := ereq.dob }
        else e) := by
  simp only [updateEmployee]
  cases ereq.mobileno with
  | none => rfl
  | some phones =>
    by_cases hl : phones.length > 0
    · simp [hl]
    · simp [hl]

/-- Claim C7: for every full update that is not rejected (the duplicate-email
check is the only rejection, on the customer route), the parent row of the
given id ends with its mutable columns equal to exactly the values supplied
in the request: an absent field is stored as null, never left at its previous
value. -/
theorem full_update_overwrites_all_mutable_columns (id : Nat)
    (creq : CustomerUpdateReq) (ereq : EmployeeUpdateReq) (db : DB)
    (h : emailConflictC db id creq.email = false) :
    (∀ c ∈ (updateCustomer id creq db).2.customers, c.customer_id = id →
       c.firstName = creq.firstName ∧ c.lastName = creq.lastName ∧
       c.email = creq.email ∧ c.type = creq.customerType) ∧
    (∀ e ∈ (updateEmployee id ereq db).2.employees, e.employee_id = id →
       e.first_name = ereq.firstName ∧ e.last_name = ereq.lastName ∧
       e.email = ereq.email ∧ e.role = ereq.role ∧ e.dob = ereq.dob) := by
  constructor
  · rw [updateCustomer_customers id creq db h]
    intro c hc hid
    rcases List.mem_map.mp hc with ⟨c0, hc0, rfl⟩
    by_cases hb : c0.customer_id == id
    · simp [hb]
    · exfalso
      rw [if_neg hb] at hid
      exact (by simpa using hb : ¬ c0.customer_id = id) hid
  · rw [updateEmployee_employees id ereq db]
    intro e he hid
    rcases List.mem_map.mp he with ⟨e0, he0, rfl⟩
    by_cases hb : e0.employee_id == id
    · simp [hb]
    · exfalso
      rw [if_neg hb] at hid
      exact (by simpa using hb : ¬ e0.employee_id = id) hid

/-- Witness for C7: the stored customer row keeps none of its old values and
an absent employee field would be stored as the supplied option; here the
update of customer 1 overwrites every mutable column with the request
values. -/
theorem full_update_overwrites_all_mutable_columns_witness :
    emailConflictC dbOneCustomer 1 creqU.email = false ∧
    (∀ c ∈ (updateCustomer 1 creqU dbOneCustomer).2.customers, c.customer_id = 1 →
       c.firstName = creqU.firstName ∧ c.lastName = creqU.lastName ∧
       c.email = creqU.email ∧ c.type = creqU.customerType) ∧
    (∀ e ∈ (updateEmployee 1 ereqU dbConf).2.employees, e.employee_id = 1 →
       e.first_name = ereqU.firstName ∧ e.last_name = ereqU.lastName ∧
       e.email = ereqU.email ∧ e.role = ereqU.role ∧ e.dob = ereqU.dob) := by
  refine ⟨by decide, ?_, ?_⟩
  · exact (full_update_overwrites_all_mutable_columns 1 creqU ereqU dbOneCustomer
      (by decide)).1
  · exact (full_update_overwrites_all_mutable_columns 1 creqU ereqU dbConf
      (by decide)).2

/-- Claim C10: the employee full update touches only first_name, last_name,
email, role and dob: whatever the request contains, every employee row keeps
its stored nic, username and password. -/
theorem employee_update_preserves_credentials (id : Nat) (req : EmployeeUpdateReq)
    (db : DB) :
    ((updateEmployee id req db).2.employees).map
        (fun e => (e.employee_id, e.nic, e.username, e.password))
      = db.employees.map (fun e => (e.employee_id, e.nic, e.username, e.password)) := by
  rw [updateEmployee_employees id req db, List.map_map]
  apply List.map_congr_left
  intro e _
  by_cases hp : e.employee_id = id
  · simp [hp]
  · simp [hp]

/-- Counterexample to C4 as stated: the employee full-update handler issues
no duplicate-email query at all; updating employee 2 to the email already
stored for employee 1 answers 200 and changes the stored rows instead of
rejecting with 400 and leaving them unchanged. -/
theorem employee_update_ignores_duplicate_email :
    (∃ e ∈ dbTwoEmployees.employees, e.employee_id ≠ 2 ∧ e.email = some "a@x.com") ∧
    (updateEmployee 2 ereqDupEmail dbTwoEmployees).1
      = Resp.success 200 "Employee updated successfully!" ∧
    (updateEmployee 2 ereqDupEmail dbTwoEmployees).2.employees ≠ dbTwoEmployees.employees := by
  decide

/-- Claim C4 (amended): only the customer full update runs a duplicate-email
check on every call; it rejects with 400 Email already exists whenever the
request supplies an email that another customer row (primary key different
from id) already stores, leaving the store untouched, and an absent email is
compared as null, which matches no row. The employee full update runs no
email check. -/
theorem customer_update_duplicate_email_check (id : Nat) (req : CustomerUpdateReq)
    (db : DB) (h : emailConflictC db id req.email = true) :
    updateCustomer id req db = (Resp.failure 400 "Email already exists", db) ∧
    emailConflictC db id none = false := by
  constructor
  · simp only [updateCustomer, h, if_true]
  · rfl

/-- Witness for the amended C4: updating customer 2 to the email stored for
customer 1 is rejected and the store is unchanged. -/
theorem customer_update_duplicate_email_check_witness :
    emailConflictC dbOneCustomer 2 (some "a@x.com") = true ∧
    updateCustomer 2 ⟨none, none, some "a@x.com", none, none⟩ dbOneCustomer
      = (Resp.failure 400 "Email already exists", dbOneCustomer) := by
  exact ⟨by decide,
    (customer_update_duplicate_email_check 2 ⟨none, none, some "a@x.com", none, none⟩
      dbOneCustomer (by decide)).1⟩

/-- Claim C5 is refuted by the code: deleting customer 1, who owns two rows
of customer_telephones, answers 200 and a later GetById answers 404, but both
phone rows are still in customer_telephones, because the second DELETE of the
handler names the table telephones. -/
theorem customer_delete_orphans_phone_rows :
    (deleteCustomer 1 dbOneCustomer).1 = Resp.success 200 "Customer deleted successfully!" ∧
    getCustomerById 1 (deleteCustomer 1 dbOneCustomer).2 = none ∧
    (deleteCustomer 1 dbOneCustomer).2.customer_telephones
      = [⟨1, "0711111111"⟩, ⟨1, "0722222222"⟩] := by
  decide

/-- Claim C6 is refuted by the code: the PATCH allow-list keeps the body key
customerType and splices it into the SET clause as a column name, but the
customers table stores the customer type in a column named type, so a PATCH
supplying only customerType makes the UPDATE statement fail and the handler
answers 500 with the store unchanged; a PATCH supplying firstName succeeds. -/
theorem patch_customer_type_takes_error_branch :
    patchCustomer 1 [("customerType", "Premium")] dbOneCustomer
      = (Resp.storeError 500 "Unknown column in field list", dbOneCustomer) ∧
    (patchCustomer 1 [("firstName", "Zed")] dbOneCustomer).1
      = Resp.success 200 "Customer updated successfully!" := by
  decide

/-- Claim C1: for every registration (customer or employee) that passes
validation and every uniqueness check, with a submitted phone list of size N,
the parent row is inserted under the generated identity and exactly N child
phone rows are appended, each referencing that identity and none referencing
any other parent. -/
theorem register_creates_exactly_child_rows (creq : CustomerRegisterReq)
    (ereq : EmployeeRegisterReq) (db : DB)
    (hce : db.customers.any (fun c => c.email == some creq.email) = false)
    (hcp : (checkPhones db.customer_telephones creq.phoneNumbers).1 = none)
    (hee : db.employees.any (fun e => e.email == some ereq.email) = false)
    (heu : db.employees.any (fun e => e.username == some ereq.username) = false)
    (hep : (checkPhones db.employee_phones ereq.mobileno).1 = none) :
    ((registerCustomer [] creq db).db.customers
        = db.customers ++ [⟨db.nextCustomerId, some creq.firstName, some creq.lastName,
            some creq.email, some creq.customerType⟩] ∧
     (registerCustomer [] creq db).db.customer_telephones
        = db.customer_telephones
            ++ creq.phoneNumbers.map (fun p => ⟨db.nextCustomerId, p⟩) ∧
     (registerCustomer [] creq db).db.customer_telephones.length
        = db.customer_telephones.length + creq.phoneNumbers.length ∧
     ∀ r ∈ (registerCustomer [] creq db).db.customer_telephones,
        r ∉ db.customer_telephones → r.owner_id = db.nextCustomerId) ∧
    ((registerEmployee [] ereq db).db.employees
        = db.employees ++ [⟨db.nextEmployeeId, some ereq.firstName, some ereq.lastName,
            some ereq.email, some ereq.nic, some ereq.role, some ereq.username,
            some ereq.password, some ereq.dob⟩] ∧
     (registerEmployee [] ereq db).db.employee_phones
        = db.employee_phones ++ ereq.mobileno.map (fun p => ⟨db.nextEmployeeId, p⟩) ∧
     (registerEmployee [] ereq db).db.employee_phones.length
        = db.employee_phones.length + ereq.mobileno.length ∧
     ∀ r ∈ (registerEmployee [] ereq db).db.employee_phones,
        r ∉ db.employee_phones → r.owner_id = db.nextEmployeeId) := by
  have hc : registerCustomer [] creq db =
      ⟨Resp.success 201 "Customer registered successfully!",
       { db with
         customers := db.customers ++ [⟨db.nextCustomerId, some creq.firstName,
           some creq.lastName, some creq.email, some creq.customerType⟩],
         customer_telephones := db.customer_telephones
            ++ creq.phoneNumbers.map (fun p => ⟨db.nextCustomerId, p⟩),
         nextCustomerId := db.nextCustomerId + 1 },
       (checkPhones db.customer_telephones creq.phoneNumbers).2⟩ := by
    cases hpr : checkPhones db.customer_telephones creq.phoneNumbers with
    | mk fst snd =>
      have hfst : fst = none := by rw [hpr] at hcp; exact hcp
      subst hfst
      simp only [registerCustomer, hce, Bool.false_eq_true, if_false, hpr,
        ne_eq, not_true_eq_false, reduceIte]
      cases hl : creq.phoneNumbers with
      | nil => simp
      | cons a as => simp
  have he : registerEmployee [] ereq db =
      ⟨Resp.success 201 "Employee registered successfully!",
       { db with
         employees := db.employees ++ [⟨db.nextEmployeeId, some ereq.firstName,
           some ereq.lastName, some ereq.email, some ereq.nic, some ereq.role,
           some ereq.username, some ereq.password, some ereq.dob⟩],
         employee_phones := db.employee_phones
            ++ ereq.mobileno.map (fun p => ⟨db.nextEmployeeId, p⟩),
         nextEmployeeId := db.nextEmployeeId + 1 },
       (checkPhones db.employee_phones ereq.mobileno).2⟩ := by
    cases hpr : checkPhones db.employee_phones ereq.mobileno with
    | mk fst snd =>
      have hfst : fst = none := by rw [hpr] at hep; exact hep
      subst hfst
      simp only [registerEmployee, hee, heu, Bool.false_eq_true, if_false, hpr,
        ne_eq, not_true_eq_false, reduceIte]
      cases hl : ereq.mobileno with
      | nil => simp
      | cons a as => simp
  refine ⟨⟨?_, ?_, ?_, ?_⟩, ⟨?_, ?_, ?_, ?_⟩⟩
  · rw [hc]
  · rw [hc]
  · rw [hc]; simp
  · rw [hc]
    intro r hr hrold
    rcases List.mem_append.mp hr with h1 | h1
    · exact absurd h1 hrold
    · rcases List.mem_map.mp h1 with ⟨p, _, rfl⟩
      rfl
  · rw [he]
  · rw [he]
  · rw [he]; simp
  · rw [he]
    intro r hr hrold
    rcases List.mem_append.mp hr with h1 | h1
    · exact absurd h1 hrold
    · rcases List.mem_map.mp h1 with ⟨p, _, rfl⟩
      rfl

/-- Witness for C1: registering into the empty store creates customer 1 with
its two phone rows and employee 1 with its one phone row, each child row
referencing the new parent identity. -/
theorem register_creates_exactly_child_rows_witness :
    (registerCustomer [] creqW dbEmpty).db.customer_telephones
      = [⟨1, "0711111111"⟩, ⟨1, "0722222222"⟩] ∧
    (registerEmployee [] ereqW dbEmpty).db.employee_phones = [⟨1, "0733333333"⟩] := by
  have h := register_creates_exactly_child_rows creqW ereqW dbEmpty
    (by decide) (by decide) (by decide) (by decide) (by decide)
  exact ⟨(h.1.2.1).trans (by decide), (h.2.2.1).trans (by decide)⟩

/-- Claim C3: a registration whose phone list holds an already-stored number
(with validation and the earlier email and username checks passing) is
rejected with 400 and the message names the first colliding number in input
order; the loop queries no number after that one, and the store, in
particular the parent table, is untouched. -/
theorem register_first_phone_conflict (creq : CustomerRegisterReq)
    (ereq : EmployeeRegisterReq) (db : DB) (p q : String)
    (hce : db.customers.any (fun c => c.email == some creq.email) = false)
    (hcp : (checkPhones db.customer_telephones creq.phoneNumbers).1 = some p)
    (hee : db.employees.any (fun e => e.email == some ereq.email) = false)
    (heu : db.employees.any (fun e => e.username == some ereq.username) = false)
    (hep : (checkPhones db.employee_phones ereq.mobileno).1 = some q) :
    (registerCustomer [] creq db
        = ⟨Resp.failure 400 ("Phone number " ++ p ++ " already exists"), db,
           creq.phoneNumbers.takeWhile
             (fun x => !(db.customer_telephones.any (fun r => r.phone_number == x)))
             ++ [p]⟩ ∧
     creq.phoneNumbers.find?
        (fun x => db.customer_telephones.any (fun r => r.phone_number == x)) = some p) ∧
    (registerEmployee [] ereq db
        = ⟨Resp.failure 400 ("Phone number " ++ q ++ " already exists"), db,
           ereq.mobileno.takeWhile
             (fun x => !(db.employee_phones.any (fun r => r.phone_number == x)))
             ++ [q]⟩ ∧
     ereq.mobileno.find?
        (fun x => db.employee_phones.any (fun r => r.phone_number == x)) = some q) := by
  refine ⟨⟨?_, ?_⟩, ⟨?_, ?_⟩⟩
  · cases hpr : checkPhones db.customer_telephones creq.phoneNumbers with
    | mk fst snd =>
      have hfst : fst = some p := by rw [hpr] at hcp; exact hcp
      subst hfst
      have hsnd : snd = creq.phoneNumbers.takeWhile
          (fun x => !(db.customer_telephones.any (fun r => r.phone_number == x))) ++ [p] := by
        have := checkPhones_snd_found db.customer_telephones creq.phoneNumbers p hcp
        rw [hpr] at this
        exact this
      subst hsnd
      simp only [registerCustomer, hce, Bool.false_eq_true, if_false, hpr,
        ne_eq, not_true_eq_false, reduceIte]
  · rw [← checkPhones_fst]
    exact hcp
  · cases hpr : checkPhones db.employee_phones ereq.mobileno with
    | mk fst snd =>
      have hfst : fst = some q := by rw [hpr] at hep; exact hep
      subst hfst
      have hsnd : snd = ereq.mobileno.takeWhile
          (fun x => !(db.employee_phones.any (fun r => r.phone_number == x))) ++ [q] := by
        have := checkPhones_snd_found db.employee_phones ereq.mobileno q hep
        rw [hpr] at this
        exact this
      subst hsnd
      simp only [registerEmployee, hee, heu, Bool.false_eq_true, if_false, hpr,
        ne_eq, not_true_eq_false, reduceIte]
  · rw [← checkPhones_fst]
    exact hep

/-- Witness for C3: registering against the stores of dbConf rejects with the
message naming 0711111111 for the customer and 0755555555 for the employee,
the numbers after the collision are never queried, and the store is
unchanged. -/
theorem register_first_phone_conflict_witness :
    registerCustomer [] creqConf dbConf
      = ⟨Resp.failure 400 "Phone number 0711111111 already exists", dbConf,
         ["0733333333", "0711111111"]⟩ ∧
    registerEmployee [] ereqConf dbConf
      = ⟨Resp.failure 400 "Phone number 0755555555 already exists", dbConf,
         ["0766666666", "0755555555"]⟩ := by
  have h := register_first_phone_conflict creqConf ereqConf dbConf
    "0711111111" "0755555555" (by decide) (by decide) (by decide) (by decide) (by decide)
  exact ⟨(h.1.1).trans (by decide), (h.2.1).trans (by decide)⟩

set_option maxRecDepth 8192

/-- Claim C8: a product full update that supplies no truthy productName,
model or modelNo and no uploaded file builds the string UPDATE products SE
WHERE product_id = ? (the slice chops the T of SET), so the store rejects it
and the handler always takes the 500 branch; it can never answer 200. -/
theorem product_update_empty_set_clause_malformed (id : Nat)
    (req : ProductUpdateReq) (db : DB)
    (h1 : truthy req.productName = false) (h2 : truthy req.model = false)
    (h3 : truthy req.modelNo = false) (h4 : req.file = none) :
    buildProductUpdateQuery req = "UPDATE products SE WHERE product_id = ?" ∧
    updateProduct id req db = (Resp.storeError 500 "SQL syntax error", db) := by
  have hq : buildProductUpdateQuery req = "UPDATE products SE WHERE product_id = ?" := by
    simp only [buildProductUpdateQuery, h1, h2, h3, h4, Bool.false_eq_true, if_false]
    decide
  have hv : validProductUpdateSQL "UPDATE products SE WHERE product_id = ?" = false := by
    decide
  refine ⟨hq, ?_⟩
  simp only [updateProduct, hq, hv, Bool.false_eq_true, if_false]

/-- Witness for C8: the all-absent product update request builds the chopped
string and is answered with the 500 branch, leaving the store unchanged. -/
theorem product_update_empty_set_clause_malformed_witness :
    buildProductUpdateQuery ⟨none, none, none, none⟩
      = "UPDATE products SE WHERE product_id = ?" ∧
    updateProduct 1 ⟨none, none, none, none⟩ dbEmpty
      = (Resp.storeError 500 "SQL syntax error", dbEmpty) := by
  exact product_update_empty_set_clause_malformed 1 ⟨none, none, none, none⟩ dbEmpty
    (by decide) (by decide) (by decide) (by decide)

theorem joinComma_ne_empty (a : String) (as : List String) (ha : a ≠ "") :
    joinComma (a :: as) ≠ "" := by
  cases as with
  | nil => simpa [joinComma] using ha
  | cons b bs =>
    simp only [joinComma]
    intro h
    apply ha
    have hdata := congrArg String.data h
    simp only [String.data_append] at hdata
    rcases List.append_eq_nil.mp (List.append_eq_nil.mp hdata).1 with ⟨h1, _⟩
    exact String.ext h1

theorem splitAgg_groupConcat (phones : List String) (h : ∀ s ∈ phones, s ≠ "") :
    splitAgg (groupConcat phones)
      = if phones = [] then [] else (joinComma phones).splitOn "," := by
  cases phones with
  | nil => rfl
  | cons a as =>
    have hb : (joinComma (a :: as) == "") = false := by
      rw [beq_eq_false_iff_ne]
      exact joinComma_ne_empty a as (h a (by simp))
    simp [groupConcat, splitAgg, hb]

theorem phonesOfC_mem_ne (db : DB) (hwf : phonesWF db = true) (i : Nat) :
    ∀ s ∈ phonesOfC db i, s ≠ "" := by
  intro s hs
  rcases List.mem_map.mp hs with ⟨r, hr, rfl⟩
  have hr' : r ∈ db.customer_telephones := List.mem_of_mem_filter hr
  simp only [phonesWF, Bool.and_eq_true, List.all_eq_true] at hwf
  have := hwf.1 r hr'
  simpa using this

theorem phonesOfE_mem_ne (db : DB) (hwf : phonesWF db = true) (i : Nat) :
    ∀ s ∈ phonesOfE db i, s ≠ "" := by
  intro s hs
  rcases List.mem_map.mp hs with ⟨r, hr, rfl⟩
  have hr' : r ∈ db.employee_phones := List.mem_of_mem_filter hr
  simp only [phonesWF, Bool.and_eq_true, List.all_eq_true] at hwf
  have := hwf.2 r hr'
  simpa using this

/-- Claim C9: on a store whose phone numbers respect the data model, every
entity returned by GetAll or GetById (customers and employees) carries a
phoneNumbers list, never null: the empty list when the entity owns no phone
rows, and otherwise the comma-split of the aggregated concatenation of its
phone rows. -/
theorem read_handlers_phone_list_shape (db : DB) (hwf : phonesWF db = true) :
    (∀ v ∈ getAllCustomers db,
        v.phoneNumbers = if phonesOfC db v.customer_id = [] then []
          else (joinComma (phonesOfC db v.customer_id)).splitOn ",") ∧
    (∀ i v, getCustomerById i db = some v →
        v.phoneNumbers = if phonesOfC db v.customer_id = [] then []
          else (joinComma (phonesOfC db v.customer_id)).splitOn ",") ∧
    (∀ v ∈ getAllEmployees db,
        v.phoneNumbers = if phonesOfE db v.employee_id = [] then []
          else (joinComma (phonesOfE db v.employee_id)).splitOn ",") ∧
    (∀ i v, getEmployeeById i db = some v →
        v.phoneNumbers = if phonesOfE db v.employee_id = [] then []
          else (joinComma (phonesOfE db v.employee_id)).splitOn ",") := by
  refine ⟨?_, ?_, ?_, ?_⟩
  · intro v hv
    rcases List.mem_map.mp hv with ⟨c, _, rfl⟩
    exact splitAgg_groupConcat (phonesOfC db c.customer_id)
      (phonesOfC_mem_ne db hwf c.customer_id)
  · intro i v hv
    unfold getCustomerById at hv
    cases hf : db.customers.find? (fun c => c.customer_id == i) with
    | none => rw [hf] at hv; exact absurd hv (by simp)
    | some c =>
      rw [hf] at hv
      have hv' : customerViewOf db c = v := by simpa using hv
      subst hv'
      exact splitAgg_groupConcat (phonesOfC db c.customer_id)
        (phonesOfC_mem_ne db hwf c.customer_id)
  · intro v hv
    rcases List.mem_map.mp hv with ⟨e, _, rfl⟩
    exact splitAgg_groupConcat (phonesOfE db e.employee_id)
      (phonesOfE_mem_ne db hwf e.employee_id)
  · intro i v hv
    unfold getEmployeeById at hv
    cases hf : db.employees.find? (fun e => e.employee_id == i) with
    | none => rw [hf] at hv; exact absurd hv (by simp)
    | some e =>
      rw [hf] at hv
      have hv' : employeeViewOf db e = v := by simpa using hv
      subst hv'
      exact splitAgg_groupConcat (phonesOfE db e.employee_id)
        (phonesOfE_mem_ne db hwf e.employee_id)

/-- Witness for C9: on the store dbReads (customer 1 with one phone, customer
2 with none, employee 1 with none) each read handler yields the stated list
shape, never null. -/
theorem read_handlers_phone_list_shape_witness :
    phonesWF dbReads = true ∧
    ((∀ v ∈ getAllCustomers dbReads,
        v.phoneNumbers = if phonesOfC dbReads v.customer_id = [] then []
          else (joinComma (phonesOfC dbReads v.customer_id)).splitOn ",") ∧
     (∀ i v, getCustomerById i dbReads = some v →
        v.phoneNumbers = if phonesOfC dbReads v.customer_id = [] then []
          else (joinComma (phonesOfC dbReads v.customer_id)).splitOn ",") ∧
     (∀ v ∈ getAllEmployees dbReads,
        v.phoneNumbers = if phonesOfE dbReads v.employee_id = [] then []
          else (joinComma (phonesOfE dbReads v.employee_id)).splitOn ",") ∧
     (∀ i v, getEmployeeById i dbReads = some v →
        v.phoneNumbers = if phonesOfE dbReads v.employee_id = [] then []
          else (joinComma (phonesOfE dbReads v.employee_id)).splitOn ",")) :=
  ⟨by decide, read_handlers_phone_list_shape dbReads (by decide)⟩

end RepairShop
